import Mathlib

/-!
Shallow embedding of the `nls` repository (file `src/nls/model.py`), covering
the `Solution` class: coefficient derivation from physical parameters,
pumping-profile sampling over the 1D/2D grid (`getPumping`), the reservoir
density computed by `visualize`, the `store`/`restore` mat-file round trip,
and the scenario factory's broadcasting of a scalar initial field.

Numbers are modelled as exact rationals (`ℚ`); complex entries of the field
arrays as pairs `(re, im) : ℚ × ℚ`.  `scipy.io.savemat`/`loadmat` are modelled
at value level: a mat-file is a record of the stored values (the shape effects
of the mat round trip, e.g. a 1-D array coming back as a row matrix that the
code transposes with `.T`, are memory-layout concerns outside the embedding;
the element values are preserved).  The pumping profile (class
`GaussianPumping`, defined in `nls/pumping.py`) is abstracted as a pair of
evaluation functions, one per call arity, since `model.py` only ever calls it
elementwise on coordinate arrays.
-/

namespace NLS

/-- A pumping profile: a callable evaluated elementwise on one coordinate
array (1D radial call `self.pumping(x)`) or on a meshed pair of coordinate
arrays (2D call `self.pumping(X, Y)`). -/
structure Pumping where
  eval1 : ℚ → ℚ
  eval2 : ℚ → ℚ → ℚ

/-- The `original_params` dictionary restricted to the five keys `model.py`
reads: `R`, `gamma`, `g`, `tilde_g`, `gamma_R`.  A `none` field is an absent
key (dictionary access then raises `KeyError`). -/
structure Params where
  R : Option ℚ
  gamma : Option ℚ
  g : Option ℚ
  tilde_g : Option ℚ
  gamma_R : Option ℚ
deriving DecidableEq

/-- The empty dictionary `{}` (all five keys absent). -/
def Params.empty : Params := ⟨none, none, none, none, none⟩

/-- Class attribute `Solution.t0 = 1.0e+0` (seconds). -/
def t0 : ℚ := 1

/-- The coefficient vector built in `Solution.__init__` (model.py lines
175-191): `zeros(23)` followed by the eleven slot assignments, given the five
physical parameters. -/
def coeffsOf (R gamma g tilde_g gamma_R : ℚ) : List ℚ :=
  ((((((((((((List.replicate 23 (0 : ℚ)).set 0 1).set 1 1).set
    2 (R / (4 * tilde_g))).set 3 (gamma * t0 / 2)).set 4 1).set 5 1).set
    10 0).set 11 (2 * tilde_g * t0 / gamma_R)).set 12 1).set
    13 (R / (gamma_R * g))).set 14 0)

/-- Coefficient derivation from the `originals` dictionary, as performed by
`Solution.__init__`: each of the five keys is read (a missing key raises
`KeyError`, modelled as `none`), and on success the vector `coeffsOf` is
produced. -/
def deriveCoeffs (originals : Params) : Option (List ℚ) := do
  let R ← originals.R
  let tilde_g ← originals.tilde_g
  let gamma ← originals.gamma
  let gamma_R ← originals.gamma_R
  let g ← originals.g
  pure (coeffsOf R gamma g tilde_g gamma_R)

/-- The mutable state of class `Solution` (model.py lines 158-316).  `desc`
and `label` are only ever written by `restore`; they are carried as ordinary
fields. -/
structure Solution where
  dt : ℚ
  dx : ℚ
  order : ℕ
  num_nodes : ℕ
  num_iters : ℕ
  pumping : Pumping
  init_sol : List (ℚ × ℚ)
  solution : List (ℚ × ℚ)
  originals : Params
  coeffs : List ℚ
  elapsed_time : ℚ
  desc : String
  label : String

/-- Constructor `Solution.__init__`: stores the constructor arguments, sets
`solution = None` (modelled as the empty array), `elapsed_time = 0.0`, and
derives the coefficient vector; a missing physical parameter raises
`KeyError` before the object is produced. -/
def mkSolution (dt dx : ℚ) (num_nodes order num_iters : ℕ) (pumping : Pumping)
    (originals : Params) (init_solution : List (ℚ × ℚ)) : Option Solution := do
  let coeffs ← deriveCoeffs originals
  pure { dt := dt, dx := dx, order := order, num_nodes := num_nodes,
         num_iters := num_iters, pumping := pumping, init_sol := init_solution,
         solution := [], originals := originals, coeffs := coeffs,
         elapsed_time := 0, desc := "", label := "" }

/-- Model of `numpy.linspace(left, right, num)` with the default `endpoint=True`:
`num` evenly spaced values from `left` to `right` inclusive.  Element `i` is
`left + i * (right - left) / (num - 1)`; for `num = 1` the division by zero
(`ℚ` convention `x / 0 = 0`) yields `[left]`, matching numpy's
special case. -/
def linspace (left right : ℚ) (num : ℕ) : List ℚ :=
  (List.range num).map
    (fun (i : ℕ) => left + (i : ℚ) * ((right - left) / ((num : ℚ) - 1)))

/-- The 1D radial coordinates of `Solution.getPumping` (else-branch, lines
216-218): `linspace(0.0, num_nodes * dx, num_nodes)`. -/
def Solution.coords1D (s : Solution) : List ℚ :=
  linspace 0 ((s.num_nodes : ℚ) * s.dx) s.num_nodes

/-- The 2D coordinate axis of `Solution.getPumping` (then-branch, lines
210-212): `linspace(-num_nodes * dx / 2, num_nodes * dx / 2, num_nodes)`. -/
def Solution.coords2Daxis (s : Solution) : List ℚ :=
  linspace (-((s.num_nodes : ℚ) * s.dx / 2)) ((s.num_nodes : ℚ) * s.dx / 2) s.num_nodes

/-- The sampling performed by `Solution.getPumping` as a function of the
profile, node count, spacing and bound field length (the spec's `Grid.sample`):
if `num_nodes ** 2 == len(init_sol)` the profile is evaluated on
`meshgrid(x, x)` of the centered axis and reshaped to length `num_nodes ** 2`
(row `i` holds `pumping(x[j], x[i])` for `j = 0..n-1`); otherwise it is
evaluated elementwise on the 1D radial coordinates. -/
def gridSample (p : Pumping) (num_nodes : ℕ) (dx : ℚ) (fieldLen : ℕ) : List ℚ :=
  if num_nodes ^ 2 = fieldLen then
    let x := linspace (-((num_nodes : ℚ) * dx / 2)) ((num_nodes : ℚ) * dx / 2) num_nodes
    (x.map (fun yi => x.map (fun xj => p.eval2 xj yi))).flatten
  else
    (linspace 0 ((num_nodes : ℚ) * dx) num_nodes).map p.eval1

/-- Method `Solution.getPumping` (lines 208-220). -/
def Solution.getPumping (s : Solution) : List ℚ :=
  gridSample s.pumping s.num_nodes s.dx s.init_sol.length

/-- Method `Solution.setPumping` (lines 237-238): replaces the profile reference. -/
def Solution.setPumping (s : Solution) (p : Pumping) : Solution :=
  { s with pumping := p }

/-- A call to `getPumping` as a state transformer: it returns the sampled
intensity array and leaves the `Solution` as it was (the method only reads
`self`). -/
def Solution.getPumpingOp (s : Solution) : List ℚ × Solution :=
  (s.getPumping, s)

/-- Iterated state: `k` successive calls to `getPumping`, keeping only the final state. -/
def readPumpingTimes : ℕ → Solution → Solution
  | 0, s => s
  | k + 1, s => readPumpingTimes k (s.getPumpingOp).2

/-- Model of `numpy.arange(start, stop, step)`: values `start + i * step` for
`0 ≤ i < ⌈(stop - start) / step⌉`. -/
def arange (start stop step : ℚ) : List ℚ :=
  (List.range (Int.toNat ⌈(stop - start) / step⌉)).map
    (fun (i : ℕ) => start + (i : ℚ) * step)

/-- The coordinate array of `Solution.visualize` (line 250):
`arange(0.0, dx * num_nodes, dx)`. -/
def Solution.visualizeX (s : Solution) : List ℚ :=
  arange 0 (s.dx * (s.num_nodes : ℚ)) s.dx

/-- The pumping profile of `Solution.visualize` (line 251):
`p = self.pumping(x)`, elementwise on the coordinate array. -/
def Solution.visualizeP (s : Solution) : List ℚ :=
  s.visualizeX.map s.pumping.eval1

/-- The condensate density of `Solution.visualize` (line 252):
`u = (self.solution.conj() * self.solution).real`, i.e. elementwise
`re² + im²`. -/
def Solution.visualizeU (s : Solution) : List ℚ :=
  s.solution.map (fun z => z.1 * z.1 + z.2 * z.2)

/-- The reservoir density of `Solution.visualize` (line 253):
`n = self.coeffs[11] * p / (self.coeffs[12] + self.coeffs[13] * u)`,
elementwise over the equal-length arrays `p` and `u`. -/
def Solution.visualizeN (s : Solution) : List ℚ :=
  List.zipWith
    (fun p u => s.coeffs.getD 11 0 * p / (s.coeffs.getD 12 0 + s.coeffs.getD 13 0 * u))
    s.visualizeP s.visualizeU

/-- A mat-file as written by `Solution.store` (lines 283-297), at value
level: the record of stored entries. -/
structure MatFile where
  desc : String
  dimlesses : List ℚ
  elapsed_time : ℚ
  label : String
  originals : Params
  pumping : List ℚ
  solution : List (ℚ × ℚ)

/-- Method `Solution.store` (lines 283-297): builds the mat-file record from the
current state (the `filename`/`savemat` I/O is outside the embedding; the
record holds the values written). -/
def Solution.store (s : Solution) (label desc : String) : MatFile :=
  { desc := desc, dimlesses := s.coeffs, elapsed_time := s.elapsed_time,
    label := label, originals := s.originals, pumping := s.getPumping,
    solution := s.solution }

/-- Method `Solution.restore` (lines 299-311): overwrites `desc`, `coeffs`,
`elapsed_time`, `label`, `originals` and `solution` from the mat-file and
returns `self`.  Note `self.originals = {}`: the stored `originals` entry is
ignored and the dictionary is reset to empty.  The `.T` transposes on
`dimlesses` and `solution` are value-preserving shape changes. -/
def Solution.restore (s : Solution) (m : MatFile) : Solution :=
  { s with desc := m.desc, coeffs := m.dimlesses, elapsed_time := m.elapsed_time,
           label := m.label, originals := Params.empty, solution := m.solution }

/-- A Python value passed as `u0` to the factory: a numeric scalar (`int`,
`float` or `complex`, all modelled as a complex rational) or an already-built
field array (1-D or 2-D). -/
inductive U0
  | scalar (c : ℚ × ℚ)
  | field1 (v : List (ℚ × ℚ))
  | field2 (v : List (List (ℚ × ℚ)))
deriving DecidableEq

/-- Complex multiplication on `(re, im)` pairs. -/
def cmul (a b : ℚ × ℚ) : ℚ × ℚ :=
  (a.1 * b.1 - a.2 * b.2, a.1 * b.2 + a.2 * b.1)

/-- Model of `numpy.ones(n)` as a complex-valued array `[1.0, ..., 1.0]`. -/
def onesArr (n : ℕ) : List (ℚ × ℚ) :=
  List.replicate n ((1 : ℚ), (0 : ℚ))

/-- The `u0` preparation of `Problem.fabricateModel1D` (lines 67-68): a
numeric scalar is replaced by `u0 * ones(num_nodes)` (elementwise scalar
multiplication); any other value is passed through unchanged. -/
def broadcastU0_1D (u0 : U0) (num_nodes : ℕ) : U0 :=
  match u0 with
  | .scalar c => .field1 ((onesArr num_nodes).map (fun o => cmul c o))
  | v => v

/-- The `u0` preparation of `Problem.fabricateModel2D` (lines 82-83): a
numeric scalar is replaced by `u0 * ones((num_nodes, num_nodes))`; any other
value is passed through unchanged. -/
def broadcastU0_2D (u0 : U0) (num_nodes : ℕ) : U0 :=
  match u0 with
  | .scalar c =>
      .field2 ((List.replicate num_nodes (onesArr num_nodes)).map
        (fun row => row.map (fun o => cmul c o)))
  | v => v

/-- Modelled from the spec: the sampling contract of §4.3 `Grid.sample` as
the spec's testable property (§8) words it, including the
`ShapeMismatchError` branch that `model.py`'s `getPumping` does not have —
a field of length `num_nodes` selects 1D radial sampling, a field of length
`num_nodes²` selects 2D Cartesian sampling, and any other length is a
`ShapeMismatchError`. -/
def gridSampleSpec (p : Pumping) (num_nodes : ℕ) (dx : ℚ) (fieldLen : ℕ) :
    Except String (List ℚ) :=
  if fieldLen = num_nodes then
    Except.ok ((linspace 0 ((num_nodes : ℚ) * dx) num_nodes).map p.eval1)
  else if fieldLen = num_nodes ^ 2 then
    let x := linspace (-((num_nodes : ℚ) * dx / 2)) ((num_nodes : ℚ) * dx / 2) num_nodes
    Except.ok ((x.map (fun yi => x.map (fun xj => p.eval2 xj yi))).flatten)
  else
    Except.error "ShapeMismatchError"

/-! ### Helper lemmas -/

theorem linspace_length (l r : ℚ) (n : ℕ) : (linspace l r n).length = n := by
  rw [linspace, List.length_map, List.length_range]

theorem linspace_getD (l r : ℚ) (n i : ℕ) (h : i < n) :
    (linspace l r n).getD i 0 = l + (i : ℚ) * ((r - l) / ((n : ℚ) - 1)) := by
  rw [List.getD_eq_getElem _ _ (by simpa [linspace_length] using h)]
  simp only [linspace, List.getElem_map, List.getElem_range]

theorem readPumpingTimes_eq (k : ℕ) (s : Solution) : readPumpingTimes k s = s := by
  induction k with
  | zero => rfl
  | succ n ih => exact ih

theorem cmul_one (c : ℚ × ℚ) : cmul c (1, 0) = c := by
  simp [cmul]

/-! ### Claims -/

/-- C4: for every set of physical parameters, coefficient derivation yields a
vector of length 23 whose populated slots carry the stated formulas and whose
remaining slots are all zero; in particular for `R = 0.05, tilde_g = 0.011`
slot 2 equals `0.05 / (4 * 0.011)`, and for `gamma = 0.566, t0 = 1.0` slot 3
equals `0.283`. -/
theorem C4_coefficient_derivation (R gamma g tilde_g gamma_R : ℚ) :
    (coeffsOf R gamma g tilde_g gamma_R).length = 23 ∧
    coeffsOf R gamma g tilde_g gamma_R =
      [1, 1, R / (4 * tilde_g), gamma * t0 / 2, 1, 1, 0, 0, 0, 0,
       0, 2 * tilde_g * t0 / gamma_R, 1, R / (gamma_R * g), 0,
       0, 0, 0, 0, 0, 0, 0, 0] ∧
    (∀ i, i < 23 → i ∉ ([0, 1, 2, 3, 4, 5, 10, 11, 12, 13, 14] : List ℕ) →
      (coeffsOf R gamma g tilde_g gamma_R).getD i 0 = 0) ∧
    (coeffsOf (1/20) gamma g (11/1000) gamma_R).getD 2 0 =
      (1/20 : ℚ) / (4 * (11/1000)) ∧
    (coeffsOf R (566/1000) g tilde_g gamma_R).getD 3 0 = (283/1000 : ℚ) := by
  refine ⟨rfl, rfl, ?_, rfl, ?_⟩
  · intro i h1 h2
    interval_cases i <;> first | rfl | (exact absurd (by decide) h2)
  · show (566 / 1000 : ℚ) * t0 / 2 = 283 / 1000
    norm_num [t0]

theorem C4_coefficient_derivation_witness :
    (coeffsOf (1/20) (566/1000) (1/1000) (11/1000) 10).length = 23 ∧
    coeffsOf (1/20) (566/1000) (1/1000) (11/1000) 10 =
      [1, 1, (1/20 : ℚ) / (4 * (11/1000)), (566/1000 : ℚ) * t0 / 2, 1, 1, 0, 0, 0, 0,
       0, 2 * (11/1000 : ℚ) * t0 / 10, 1, (1/20 : ℚ) / (10 * (1/1000)), 0,
       0, 0, 0, 0, 0, 0, 0, 0] ∧
    (∀ i, i < 23 → i ∉ ([0, 1, 2, 3, 4, 5, 10, 11, 12, 13, 14] : List ℕ) →
      (coeffsOf (1/20) (566/1000) (1/1000) (11/1000) 10).getD i 0 = 0) ∧
    (coeffsOf (1/20) (566/1000) (1/1000) (11/1000) 10).getD 2 0 =
      (1/20 : ℚ) / (4 * (11/1000)) ∧
    (coeffsOf (1/20) (566/1000) (1/1000) (11/1000) 10).getD 3 0 = (283/1000 : ℚ) :=
  C4_coefficient_derivation (1/20) (566/1000) (1/1000) (11/1000) 10

/-- C6: constructing a `Solution` requires all five physical parameters
`R`, `gamma`, `g`, `tilde_g`, `gamma_R`; if any one of them is absent from
the parameter dictionary, construction fails (the dictionary access raises)
and no `Solution` is produced. -/
theorem C6_missing_parameter (dt dx : ℚ) (num_nodes order num_iters : ℕ)
    (pumping : Pumping) (originals : Params) (init_solution : List (ℚ × ℚ))
    (h : originals.R = none ∨ originals.gamma = none ∨ originals.g = none ∨
         originals.tilde_g = none ∨ originals.gamma_R = none) :
    mkSolution dt dx num_nodes order num_iters pumping originals init_solution = none := by
  obtain ⟨oR, oGamma, oG, oTg, oGr⟩ := originals
  cases oR <;> cases oGamma <;> cases oG <;> cases oTg <;> cases oGr <;>
    simp_all [mkSolution, deriveCoeffs]

/-- A sample pumping profile used in concrete instantiations: the identity
on one coordinate, addition on two. -/
def pumpId : Pumping := ⟨fun x => x, fun x y => x + y⟩

theorem C6_missing_parameter_witness :
    mkSolution 1 (1/10) 3 5 10 pumpId
      ⟨some (1/20), some (566/1000), none, some (11/1000), some 10⟩ [] = none :=
  C6_missing_parameter 1 (1/10) 3 5 10 pumpId
    ⟨some (1/20), some (566/1000), none, some (11/1000), some 10⟩ []
    (Or.inr (Or.inr (Or.inl rfl)))

/-- C10: `restore` only writes `desc`, `label`, `coeffs`, `elapsed_time`,
`originals` and `solution`; the fields `dt`, `dx`, `order`, `num_nodes`,
`num_iters`, `pumping` and `init_sol` are unchanged by the call. -/
theorem C10_restore_frame (s : Solution) (m : MatFile) :
    (s.restore m).dt = s.dt ∧ (s.restore m).dx = s.dx ∧
    (s.restore m).order = s.order ∧ (s.restore m).num_nodes = s.num_nodes ∧
    (s.restore m).num_iters = s.num_iters ∧ (s.restore m).pumping = s.pumping ∧
    (s.restore m).init_sol = s.init_sol :=
  ⟨rfl, rfl, rfl, rfl, rfl, rfl, rfl⟩

/-- A concrete parameter dictionary holding all five physical parameters
(the values of `solve2d.py`). -/
def sampleParams : Params :=
  ⟨some (1/20), some (566/1000), some (1/1000), some (11/1000), some 10⟩

/-- A concrete `Solution` state with a non-empty `originals` dictionary, a
current solution field and a non-zero elapsed time. -/
def sampleSolution : Solution :=
  { dt := 1/1000, dx := 1/10, order := 5, num_nodes := 2, num_iters := 10,
    pumping := pumpId, init_sol := [(1, 0), (1, 0)],
    solution := [(1, 2), (3, 4)], originals := sampleParams,
    coeffs := coeffsOf (1/20) (566/1000) (1/1000) (11/1000) 10,
    elapsed_time := 42, desc := "", label := "" }

/-- C1 counterexample: `restore(store(state))` does not reproduce
`original_params` — `restore` resets the `originals` dictionary to `{}`, so
a state whose dictionary is non-empty comes back different. -/
theorem C1_roundtrip_counterexample :
    (sampleSolution.restore (sampleSolution.store "lbl" "dsc")).originals ≠
      sampleSolution.originals := by
  decide

/-- C1 amended: `restore(store(state))` reproduces `coefficients`,
`elapsed_time` and the solution `field` exactly, but resets
`original_params` to the empty dictionary rather than reproducing it. -/
theorem C1_roundtrip_amended (s : Solution) (label desc : String) :
    (s.restore (s.store label desc)).coeffs = s.coeffs ∧
    (s.restore (s.store label desc)).elapsed_time = s.elapsed_time ∧
    (s.restore (s.store label desc)).solution = s.solution ∧
    (s.restore (s.store label desc)).originals = Params.empty :=
  ⟨rfl, rfl, rfl, rfl⟩

/-- A concrete state whose initial-field length (5) is neither `num_nodes`
(3) nor `num_nodes²` (9). -/
def c2cex : Solution :=
  { dt := 1/1000, dx := 1, order := 5, num_nodes := 3, num_iters := 10,
    pumping := pumpId, init_sol := [(0, 0), (0, 0), (0, 0), (0, 0), (0, 0)],
    solution := [], originals := Params.empty,
    coeffs := List.replicate 23 0, elapsed_time := 0, desc := "", label := "" }

/-- C2 counterexample: for a field length that is neither `num_nodes` nor
`num_nodes²`, `getPumping` does not raise a `ShapeMismatchError` as the
claim states — it silently performs 1D radial sampling and returns a normal
intensity array, diverging from the spec-modelled `gridSampleSpec`. -/
theorem C2_shape_error_counterexample :
    c2cex.init_sol.length ≠ c2cex.num_nodes ∧
    c2cex.init_sol.length ≠ c2cex.num_nodes ^ 2 ∧
    c2cex.getPumping = [0, 3/2, 3] ∧
    gridSampleSpec c2cex.pumping c2cex.num_nodes c2cex.dx c2cex.init_sol.length =
      Except.error "ShapeMismatchError" := by
  refine ⟨by decide, by decide, ?_, rfl⟩
  norm_num [c2cex, Solution.getPumping, gridSample, linspace, pumpId,
    List.range_succ]

/-- C2 amended: `getPumping` selects by field length — a field of length
`num_nodes²` selects 2D Cartesian sampling, and any other field length
(including `num_nodes` itself, whenever `num_nodes ∉ {0, 1}`) selects 1D
radial sampling; no length ever raises an error, the function is total. -/
theorem C2_dimension_inference_amended (s : Solution) :
    (s.init_sol.length = s.num_nodes ^ 2 →
      s.getPumping =
        (s.coords2Daxis.map
          (fun yi => s.coords2Daxis.map (fun xj => s.pumping.eval2 xj yi))).flatten) ∧
    (s.init_sol.length ≠ s.num_nodes ^ 2 →
      s.getPumping = s.coords1D.map s.pumping.eval1) := by
  constructor
  · intro h
    simp only [Solution.getPumping, gridSample, Solution.coords2Daxis]
    rw [if_pos h.symm]
  · intro h
    simp only [Solution.getPumping, gridSample, Solution.coords1D]
    rw [if_neg (fun hc => h hc.symm)]

/-- A concrete state whose initial-field length is `num_nodes²` (4). -/
def c2w : Solution :=
  { dt := 1/1000, dx := 1, order := 3, num_nodes := 2, num_iters := 10,
    pumping := pumpId, init_sol := [(0, 0), (0, 0), (0, 0), (0, 0)],
    solution := [], originals := Params.empty,
    coeffs := List.replicate 23 0, elapsed_time := 0, desc := "", label := "" }

theorem C2_dimension_inference_amended_witness :
    c2w.init_sol.length = c2w.num_nodes ^ 2 ∧
    c2w.getPumping =
      (c2w.coords2Daxis.map
        (fun yi => c2w.coords2Daxis.map (fun xj => c2w.pumping.eval2 xj yi))).flatten :=
  ⟨by decide, (C2_dimension_inference_amended c2w).1 (by decide)⟩

theorem flatten_map_length {α β : Type} (f : α → List β) (m : ℕ)
    (hf : ∀ a, (f a).length = m) :
    ∀ ys : List α, ((ys.map f).flatten).length = ys.length * m := by
  intro ys
  induction ys with
  | nil => simp
  | cons a t ih =>
      simp only [List.map_cons, List.flatten_cons, List.length_append, hf, ih,
        List.length_cons]
      ring

/-- C9: whenever the initial-field length equals `num_nodes²` — including
the ambiguous cases `num_nodes = 0` and `num_nodes = 1`, where that length
also equals `num_nodes` — `getPumping` deterministically takes the 2D
Cartesian branch: the centered mesh, flattened to length `num_nodes²`,
never the 1D radial branch. -/
theorem C9_square_length_selects_2d (s : Solution)
    (h : s.init_sol.length = s.num_nodes ^ 2) :
    s.getPumping =
      (s.coords2Daxis.map
        (fun yi => s.coords2Daxis.map (fun xj => s.pumping.eval2 xj yi))).flatten ∧
    s.getPumping.length = s.num_nodes ^ 2 := by
  have h2 : s.getPumping =
      (s.coords2Daxis.map
        (fun yi => s.coords2Daxis.map (fun xj => s.pumping.eval2 xj yi))).flatten := by
    simp only [Solution.getPumping, gridSample, Solution.coords2Daxis]
    rw [if_pos h.symm]
  refine ⟨h2, ?_⟩
  rw [h2, flatten_map_length _ s.coords2Daxis.length
        (fun a => List.length_map _ _) s.coords2Daxis]
  rw [Solution.coords2Daxis, linspace_length, pow_two]

/-- A concrete state in the ambiguous regime `num_nodes = 1`: the field
length 1 equals both `num_nodes` and `num_nodes²`. -/
def c9w : Solution :=
  { dt := 1/1000, dx := 2, order := 3, num_nodes := 1, num_iters := 10,
    pumping := pumpId, init_sol := [(5, 5)],
    solution := [], originals := Params.empty,
    coeffs := List.replicate 23 0, elapsed_time := 0, desc := "", label := "" }

theorem C9_square_length_selects_2d_witness :
    c9w.init_sol.length = c9w.num_nodes ∧
    c9w.init_sol.length = c9w.num_nodes ^ 2 ∧
    (c9w.getPumping =
      (c9w.coords2Daxis.map
        (fun yi => c9w.coords2Daxis.map (fun xj => c9w.pumping.eval2 xj yi))).flatten ∧
     c9w.getPumping.length = c9w.num_nodes ^ 2) :=
  ⟨by decide, by decide, C9_square_length_selects_2d c9w (by decide)⟩

/-- C7: pumping is recomputed on demand, not cached — after any number `k`
of earlier `getPumping` reads under a different profile `q`, setting profile
`p` and reading again returns the sample of `p` over the unchanged grid
geometry (node count, spacing, bound field length). -/
theorem C7_pumping_recomputed (s : Solution) (p q : Pumping) (k : ℕ) :
    ((readPumpingTimes k (s.setPumping q)).setPumping p).getPumping =
      gridSample p s.num_nodes s.dx s.init_sol.length := by
  rw [readPumpingTimes_eq]
  rfl

/-- C8: a scalar `u0` handed to the scenario factory is broadcast to the
uniform field `u0 * ones(grid shape)`: length `num_nodes` in the 1D model
and `num_nodes × num_nodes` in the 2D model, every entry equal to `u0`; a
non-scalar `u0` is passed through unchanged by both factories. -/
theorem C8_scalar_u0_broadcast (c : ℚ × ℚ) (v1 : List (ℚ × ℚ))
    (v2 : List (List (ℚ × ℚ))) (n : ℕ) :
    broadcastU0_1D (U0.scalar c) n = U0.field1 (List.replicate n c) ∧
    broadcastU0_2D (U0.scalar c) n =
      U0.field2 (List.replicate n (List.replicate n c)) ∧
    broadcastU0_1D (U0.field1 v1) n = U0.field1 v1 ∧
    broadcastU0_1D (U0.field2 v2) n = U0.field2 v2 ∧
    broadcastU0_2D (U0.field1 v1) n = U0.field1 v1 ∧
    broadcastU0_2D (U0.field2 v2) n = U0.field2 v2 := by
  refine ⟨?_, ?_, rfl, rfl, rfl, rfl⟩
  · simp [broadcastU0_1D, onesArr, List.map_replicate, cmul_one]
  · simp [broadcastU0_2D, onesArr, List.map_replicate, cmul_one]

theorem linspace_getD_zero (l r : ℚ) (n : ℕ) (h : 0 < n) :
    (linspace l r n).getD 0 0 = l := by
  rw [linspace_getD l r n 0 h]
  simp

theorem linspace_getD_last (l r : ℚ) (n : ℕ) (h : 1 < n) :
    (linspace l r n).getD (n - 1) 0 = r := by
  rw [linspace_getD l r n (n - 1) (by omega)]
  have hc : ((n : ℚ) - 1) ≠ 0 := by
    have h1 : (1 : ℚ) < (n : ℚ) := by exact_mod_cast h
    linarith
  rw [Nat.cast_sub (by omega : 1 ≤ n), Nat.cast_one, mul_comm,
      div_mul_cancel₀ _ hc]
  ring

theorem linspace_mem_bounds (l r : ℚ) (n : ℕ) (hlr : l ≤ r) (hn : 1 < n) :
    ∀ x ∈ linspace l r n, l ≤ x ∧ x ≤ r := by
  intro x hx
  rw [linspace, List.mem_map] at hx
  obtain ⟨i, hi, rfl⟩ := hx
  rw [List.mem_range] at hi
  have hn1 : (0 : ℚ) < (n : ℚ) - 1 := by
    have h1 : (1 : ℚ) < (n : ℚ) := by exact_mod_cast hn
    linarith
  have hstep : 0 ≤ (r - l) / ((n : ℚ) - 1) :=
    div_nonneg (by linarith) (le_of_lt hn1)
  constructor
  · have hge : 0 ≤ (i : ℚ) * ((r - l) / ((n : ℚ) - 1)) :=
      mul_nonneg (by positivity) hstep
    linarith
  · have hile : (i : ℚ) ≤ (n : ℚ) - 1 := by
      have h1 : ((i : ℚ) + 1) ≤ (n : ℚ) := by exact_mod_cast Nat.succ_le_of_lt hi
      linarith
    have h2 : (i : ℚ) * ((r - l) / ((n : ℚ) - 1)) ≤
        ((n : ℚ) - 1) * ((r - l) / ((n : ℚ) - 1)) :=
      mul_le_mul_of_nonneg_right hile hstep
    have h3 : ((n : ℚ) - 1) * ((r - l) / ((n : ℚ) - 1)) = r - l := by
      rw [mul_comm, div_mul_cancel₀ _ (ne_of_gt hn1)]
    linarith

/-- A concrete state with `dx = 1/10` and `num_nodes = 2` in the 1D regime
(field length 2). -/
def c5cex : Solution :=
  { dt := 1/1000, dx := 1/10, order := 5, num_nodes := 2, num_iters := 10,
    pumping := pumpId, init_sol := [(0, 0), (0, 0)],
    solution := [], originals := Params.empty,
    coeffs := List.replicate 23 0, elapsed_time := 0, desc := "", label := "" }

/-- C5 counterexample: with `dx = 1/10 > 0` and `num_nodes = 2 > 1` in the
1D case, the coordinates used to sample the pumping profile are
`linspace(0, dx·num_nodes, num_nodes) = [0, 1/5]`: the second node equals
`dx·num_nodes = 1/5`, which lies outside the claimed half-open interval
`[0, dx·num_nodes)`, and the spacing `1/5 - 0` differs from the claimed
`dx = 1/10`. -/
theorem C5_grid_coordinates_counterexample :
    0 < c5cex.dx ∧ 1 < c5cex.num_nodes ∧
    c5cex.init_sol.length ≠ c5cex.num_nodes ^ 2 ∧
    c5cex.getPumping = c5cex.coords1D.map c5cex.pumping.eval1 ∧
    c5cex.coords1D = [0, 1/5] ∧
    ¬((1/5 : ℚ) < (c5cex.num_nodes : ℚ) * c5cex.dx) ∧
    ((1/5 : ℚ) - 0 ≠ c5cex.dx) := by
  refine ⟨by norm_num [c5cex], by decide, by decide, ?_, ?_,
    by norm_num [c5cex], by norm_num [c5cex]⟩
  · norm_num [c5cex, Solution.getPumping, gridSample, Solution.coords1D,
      linspace, pumpId, List.range_succ]
  · norm_num [c5cex, Solution.coords1D, linspace, List.range_succ]

/-- C5 amended: for `dx > 0` and `num_nodes > 1`, the 1D coordinates used to
sample the pumping profile are `num_nodes` evenly spaced points spanning the
closed interval `[0, dx·num_nodes]` (endpoint included) with uniform spacing
`dx·num_nodes/(num_nodes − 1)`, not spacing `dx`; the 2D coordinate axis
spans `[-num_nodes·dx/2, +num_nodes·dx/2]` in each axis, as claimed. -/
theorem C5_grid_coordinates_amended (s : Solution) (hdx : 0 < s.dx)
    (hn : 1 < s.num_nodes) :
    (s.coords1D.length = s.num_nodes ∧
     s.coords1D.getD 0 0 = 0 ∧
     s.coords1D.getD (s.num_nodes - 1) 0 = (s.num_nodes : ℚ) * s.dx ∧
     (∀ x ∈ s.coords1D, 0 ≤ x ∧ x ≤ (s.num_nodes : ℚ) * s.dx) ∧
     (∀ i : ℕ, i + 1 < s.num_nodes →
        s.coords1D.getD (i + 1) 0 - s.coords1D.getD i 0 =
          (s.num_nodes : ℚ) * s.dx / ((s.num_nodes : ℚ) - 1))) ∧
    (s.coords2Daxis.length = s.num_nodes ∧
     s.coords2Daxis.getD 0 0 = -((s.num_nodes : ℚ) * s.dx / 2) ∧
     s.coords2Daxis.getD (s.num_nodes - 1) 0 = (s.num_nodes : ℚ) * s.dx / 2 ∧
     (∀ x ∈ s.coords2Daxis,
        -((s.num_nodes : ℚ) * s.dx / 2) ≤ x ∧ x ≤ (s.num_nodes : ℚ) * s.dx / 2)) := by
  have hdx0 : (0 : ℚ) ≤ (s.num_nodes : ℚ) * s.dx :=
    mul_nonneg (Nat.cast_nonneg _) (le_of_lt hdx)
  refine ⟨⟨linspace_length _ _ _, linspace_getD_zero _ _ _ (by omega),
      linspace_getD_last _ _ _ hn, ?_, ?_⟩,
    linspace_length _ _ _, linspace_getD_zero _ _ _ (by omega),
      linspace_getD_last _ _ _ hn, ?_⟩
  · intro x hx
    exact linspace_mem_bounds 0 ((s.num_nodes : ℚ) * s.dx) s.num_nodes
      (by linarith) hn x hx
  · intro i hi
    rw [Solution.coords1D, linspace_getD _ _ _ _ (by omega),
        linspace_getD _ _ _ _ (by omega)]
    push_cast
    ring
  · intro x hx
    have h2 : (0 : ℚ) ≤ (s.num_nodes : ℚ) * s.dx / 2 := by linarith
    exact linspace_mem_bounds _ _ _ (by linarith) hn x hx

/-- A concrete state with `dx = 1` and `num_nodes = 3`. -/
def c5w : Solution :=
  { dt := 1/1000, dx := 1, order := 5, num_nodes := 3, num_iters := 10,
    pumping := pumpId, init_sol := [(0, 0), (0, 0), (0, 0)],
    solution := [], originals := Params.empty,
    coeffs := List.replicate 23 0, elapsed_time := 0, desc := "", label := "" }

theorem C5_grid_coordinates_amended_witness :
    0 < c5w.dx ∧ 1 < c5w.num_nodes ∧
    ((c5w.coords1D.length = c5w.num_nodes ∧
      c5w.coords1D.getD 0 0 = 0 ∧
      c5w.coords1D.getD (c5w.num_nodes - 1) 0 = (c5w.num_nodes : ℚ) * c5w.dx ∧
      (∀ x ∈ c5w.coords1D, 0 ≤ x ∧ x ≤ (c5w.num_nodes : ℚ) * c5w.dx) ∧
      (∀ i : ℕ, i + 1 < c5w.num_nodes →
        c5w.coords1D.getD (i + 1) 0 - c5w.coords1D.getD i 0 =
          (c5w.num_nodes : ℚ) * c5w.dx / ((c5w.num_nodes : ℚ) - 1))) ∧
     (c5w.coords2Daxis.length = c5w.num_nodes ∧
      c5w.coords2Daxis.getD 0 0 = -((c5w.num_nodes : ℚ) * c5w.dx / 2) ∧
      c5w.coords2Daxis.getD (c5w.num_nodes - 1) 0 = (c5w.num_nodes : ℚ) * c5w.dx / 2 ∧
      (∀ x ∈ c5w.coords2Daxis,
        -((c5w.num_nodes : ℚ) * c5w.dx / 2) ≤ x ∧ x ≤ (c5w.num_nodes : ℚ) * c5w.dx / 2))) := by
  have h1 : 0 < c5w.dx := by norm_num [c5w]
  have h2 : 1 < c5w.num_nodes := by decide
  exact ⟨h1, h2, C5_grid_coordinates_amended c5w h1 h2⟩

/-- C3: the reservoir density computed by `visualize` is, at every index `i`
of the resulting array, exactly
`n_i = coeffs[11] * p_i / (coeffs[12] + coeffs[13] * u_i)`, where
`p_i` is the pumping profile evaluated at grid coordinate `i * dx` and
`u_i = |field_i|²` is the condensate density at that node. -/
theorem C3_reservoir_density_formula (s : Solution) (i : ℕ)
    (h : i < s.visualizeN.length) :
    s.visualizeN.getD i 0 =
      s.coeffs.getD 11 0 * s.pumping.eval1 ((i : ℚ) * s.dx) /
        (s.coeffs.getD 12 0 +
          s.coeffs.getD 13 0 *
            ((s.solution.getD i (0, 0)).1 ^ 2 + (s.solution.getD i (0, 0)).2 ^ 2)) := by
  have hN : s.visualizeN.length = min s.visualizeP.length s.visualizeU.length := by
    rw [Solution.visualizeN, List.length_zipWith]
  have hp : i < s.visualizeP.length := by
    rw [hN] at h
    omega
  have hu : i < s.visualizeU.length := by
    rw [hN] at h
    omega
  have hsol : i < s.solution.length := by
    rw [Solution.visualizeU, List.length_map] at hu
    exact hu
  rw [List.getD_eq_getElem _ _ h, List.getD_eq_getElem _ _ hsol]
  simp only [Solution.visualizeN, List.getElem_zipWith, Solution.visualizeP,
    Solution.visualizeU, Solution.visualizeX, arange, List.getElem_map,
    List.getElem_range, zero_add]
  ring

/-- A concrete state with a current solution field and populated reservoir
coefficients. -/
def c3w : Solution :=
  { dt := 1/1000, dx := 1, order := 5, num_nodes := 2, num_iters := 10,
    pumping := pumpId, init_sol := [(1, 0), (1, 0)],
    solution := [(1, 1), (2, 0)], originals := Params.empty,
    coeffs := [0, 0, 0, 0, 0, 0, 0, 0, 0, 0, 0, 3, 1, 2],
    elapsed_time := 0, desc := "", label := "" }

theorem C3_reservoir_density_formula_witness :
    0 < c3w.visualizeN.length ∧
    c3w.visualizeN.getD 0 0 =
      c3w.coeffs.getD 11 0 * c3w.pumping.eval1 (((0 : ℕ) : ℚ) * c3w.dx) /
        (c3w.coeffs.getD 12 0 +
          c3w.coeffs.getD 13 0 *
            ((c3w.solution.getD 0 (0, 0)).1 ^ 2 + (c3w.solution.getD 0 (0, 0)).2 ^ 2)) := by
  have hlen : 0 < c3w.visualizeN.length := by
    norm_num [c3w, Solution.visualizeN, Solution.visualizeP, Solution.visualizeU,
      Solution.visualizeX, arange, List.length_zipWith]
  exact ⟨hlen, C3_reservoir_density_formula c3w 0 hlen⟩

end NLS
